import Mathlib

/-!
Verification of the ICS-to-Lunch-Money transaction sync pipeline
(`sync.js`, Puppeteer-based revision).

Modelling conventions used throughout this development:

* Calendar dates are modelled as integer day numbers (`Int`).  In the source
  every `Date` value in the chunking loop is derived from `new Date()` by
  `setDate` arithmetic, so all of them share the same time of day and the
  comparisons `current < today` / `chunkEnd > today` are exactly day-number
  comparisons; `setDate(d ± k)` is exactly `d ± k` on day numbers.
* The ambient "today" (`new Date()` inside the functions) is hoisted into an
  explicit parameter, as are the environment-derived globals (`assetId`,
  `EXTERNAL_ID_SUFFIX`) and all network responses (passed as explicit
  response functions indexed by request number).
* A JavaScript value that the source checks for truthiness before use
  (`t.processingTime || "000000"`, `if (accountNumber)`, optional JSON
  fields) is modelled as an `Option`, with `none` for the falsy cases
  (absent / `null` / empty string).
* Numeric JSON fields that the source feeds to `parseFloat` are modelled by
  their parsed rational value (`ℚ`); where the source interpolates the raw
  field into a string we use `toString` of that value.
-/

/-- One loop iteration structure of `getDateChunks`: starting at `current`,
emit `(current, min (current + 30) today)` and continue from the day after
the chunk end, while `current < today`.  The JavaScript `while` loop is
translated with an explicit fuel argument (one unit per iteration); since
every iteration advances `current` by at least 31 days, `syncDays` units of
fuel are always enough for the real entry point below. -/
def chunksFromFuel (today : Int) : Nat → Int → List (Int × Int)
  | 0, _ => []
  | fuel + 1, current =>
    if current < today then
      (current, min (current + 30) today) ::
        chunksFromFuel today fuel (min (current + 30) today + 1)
    else []

/-- Lean embedding of `getDateChunks(syncDays)` (sync.js lines 119-141),
with the ambient `new Date()` hoisted into the `today` parameter:
`startDate = today - syncDays`, then chunks of width 30 days are emitted
while `current < today`, the chunk end clamped to `today`. -/
def getDateChunks (today : Int) (syncDays : Int) : List (Int × Int) :=
  chunksFromFuel today syncDays.toNat (today - syncDays)

/-- Raw Transaction as returned by the bank's transaction-search endpoint,
restricted to the fields the script reads.  `billingAmount` is the parsed
(`parseFloat`) value of the billed amount (the source always reports a
positive magnitude, but nothing in the transform relies on that);
`processingTime` is `none` when the JSON field is absent or falsy. -/
structure RawTransaction where
  transactionDate : String
  description : Option String
  billingAmount : ℚ
  debitCredit : String
  sourceCurrency : Option String
  sourceAmount : Option ℚ
  billingCurrency : Option String
  processingTime : Option String
  batchNr : Nat
  batchSequenceNr : Nat
deriving Repr, DecidableEq

/-- Normalized transaction in the Lunch Money v2 shape produced by
`transformTransactions`. -/
structure LMTransaction where
  date : String
  payee : String
  amount : ℚ
  manual_account_id : Int
  tag_ids : List Nat
  notes : String
  external_id : String
  status : String
deriving Repr, DecidableEq

/-- Body of the `map` inside `transformTransactions` (sync.js lines
871-910), for one raw transaction.  `assetId` is the parsed
`LUNCHMONEY_ASSET_ID` global and `suffix` the optional
`EXTERNAL_ID_SUFFIX` environment value. -/
def transformTx (assetId : Int) (suffix : Option String) (tagId : Nat)
    (t : RawTransaction) : LMTransaction :=
  let amount := t.billingAmount
  let signedAmount := if t.debitCredit = "DEBIT" then -|amount| else |amount|
  let notes :=
    match t.sourceCurrency with
    | some sc =>
        if some sc ≠ t.billingCurrency then
          "Original: " ++
            (match t.sourceAmount with
             | some a => toString a
             | none => "undefined") ++ " " ++ sc
        else ""
    | none => ""
  let baseId :=
    t.transactionDate ++ "-" ++ t.processingTime.getD "000000" ++ "-" ++
      toString t.batchNr ++ "-" ++ toString t.batchSequenceNr ++ "-" ++
      toString t.billingAmount
  let externalId :=
    match suffix with
    | some s => baseId ++ "-" ++ s
    | none => baseId
  { date := t.transactionDate
    payee := t.description.getD ""
    amount := signedAmount
    manual_account_id := assetId
    tag_ids := [tagId]
    notes := notes
    external_id := externalId
    status := "unreviewed" }

/-- Lean embedding of `transformTransactions(transactions, tagId)`
(sync.js lines 870-911). -/
def transformTransactions (assetId : Int) (suffix : Option String)
    (transactions : List RawTransaction) (tagId : Nat) : List LMTransaction :=
  transactions.map (transformTx assetId suffix tagId)

/-- Witness for `transformTransactions_sign` on one concrete DEBIT and one
concrete CREDIT transaction. -/
def sampleDebit : RawTransaction :=
  { transactionDate := "2026-01-15"
    description := some "COFFEE SHOP"
    billingAmount := 42/10
    debitCredit := "DEBIT"
    sourceCurrency := none
    sourceAmount := none
    billingCurrency := some "EUR"
    processingTime := some "120000"
    batchNr := 7
    batchSequenceNr := 3 }

def sampleCredit : RawTransaction :=
  { sampleDebit with debitCredit := "CREDIT", batchSequenceNr := 4 }

/-- Same raw transaction on the next calendar day, used to witness the
dedup-key uniqueness statement. -/
def sampleDebitOtherDay : RawTransaction :=
  { sampleDebit with transactionDate := "2026-01-16" }

/-- Account Descriptor as returned by the `allaccountsv2` endpoint,
restricted to the fields the script reads. -/
structure Account where
  accountNumber : String
  accountName : Option String
  productName : Option String
  balance : Option String
deriving Repr, DecidableEq

/-- Latest-transaction summary attached to a disambiguation entry. -/
structure LatestTx where
  date : String
  description : Option String
  amount : ℚ
deriving Repr, DecidableEq

/-- Outcome of the per-account 30-day transaction-preview request inside
`determineAccountNumber`: the request threw, returned a non-ok / non-array
payload (both leave `latestTransaction` empty), or returned an array. -/
inductive PreviewOutcome where
  | thrown
  | nullish
  | arr (txs : List RawTransaction)
deriving Repr, DecidableEq

/-- One entry of the ambiguous-account report (`accountDetails.push` in the
source): built from the descriptor plus the preview outcome, degrading a
failed preview to "no recent transactions" instead of aborting. -/
structure AccountDetail where
  accountNumber : String
  accountName : String
  balance : String
  latestTransaction : Option LatestTx
deriving Repr, DecidableEq

/-- Detail entry for one account, mirroring both push sites in the source
(the normal path with `accountName || productName || "Unknown"`, and the
catch path with `accountName || "Unknown"` and balance `"N/A"`). -/
def accountDetailOf (preview : Account → PreviewOutcome) (a : Account) :
    AccountDetail :=
  match preview a with
  | .thrown =>
      { accountNumber := a.accountNumber
        accountName := a.accountName.getD "Unknown"
        balance := "N/A"
        latestTransaction := none }
  | .nullish =>
      { accountNumber := a.accountNumber
        accountName := a.accountName.getD (a.productName.getD "Unknown")
        balance := a.balance.getD "N/A"
        latestTransaction := none }
  | .arr [] =>
      { accountNumber := a.accountNumber
        accountName := a.accountName.getD (a.productName.getD "Unknown")
        balance := a.balance.getD "N/A"
        latestTransaction := none }
  | .arr (t :: _) =>
      { accountNumber := a.accountNumber
        accountName := a.accountName.getD (a.productName.getD "Unknown")
        balance := a.balance.getD "N/A"
        latestTransaction := some
          { date := t.transactionDate
            description := t.description
            amount := t.billingAmount } }

/-- Result of account resolution.  The source signals the three failure
cases by throwing; the ambiguous case throws an error message listing one
block per fetched account, modelled here as the structured list it is
built from. -/
inductive AccountResult where
  | ok (accountNumber : String)
  | errNoAccounts
  | errNotFound (requested : String)
  | errAmbiguous (details : List AccountDetail)
deriving Repr, DecidableEq

/-- Lean embedding of `determineAccountNumber` (sync.js lines 436-648).
`accounts` is the fetched account list (a non-array payload is wrapped in a
singleton by the source before this logic, so it is received here as a
list); `configured` is the `ICS_ACCOUNT_NUMBER` environment value, `none`
when unset or empty (the source tests it for truthiness); `preview` gives
the outcome of the per-account 30-day transaction preview request.  Case
order follows the source: empty list first, then the configured-id lookup,
then single-account auto-detection, then the ambiguous-account report. -/
def determineAccountNumber (accounts : List Account)
    (configured : Option String) (preview : Account → PreviewOutcome) :
    AccountResult :=
  match accounts, configured with
  | [], _ => .errNoAccounts
  | _ :: _, some id =>
      match accounts.find? (fun acc => acc.accountNumber = id) with
      | some _ => .ok id
      | none => .errNotFound id
  | [a], none => .ok a.accountNumber
  | _ :: _ :: _, none =>
      .errAmbiguous (accounts.map (accountDetailOf preview))

/-- Concrete accounts and a trivial preview function for the witnesses. -/
def acctA : Account :=
  { accountNumber := "111"
    accountName := some "Main card"
    productName := none
    balance := some "100,00" }

def acctB : Account :=
  { accountNumber := "222"
    accountName := none
    productName := some "Extra card"
    balance := none }

def previewNone : Account → PreviewOutcome := fun _ => .nullish

/-- Parsed JSON body of a Lunch Money batch-insert response, restricted to
the fields the script reads: an optional `error` field (already joined to a
single string), the v2 inserted/skipped lists, and the v1 `ids` fallback. -/
structure LMBody where
  error : Option String
  transactions : Option (List String)
  skipped_duplicates : Option (List String)
  ids : Option (List Nat)
deriving Repr, DecidableEq

/-- HTTP response to one batch upload: status code, raw response text (used
inside the 400 error message), and the parsed body (`none` when
`JSON.parse` throws). -/
structure LMResponse where
  status : Nat
  bodyText : String
  body : Option LMBody
deriving Repr, DecidableEq

/-- Truth of `response.ok` of the fetch API: status in [200, 299]. -/
def respOk (status : Nat) : Bool :=
  200 ≤ status && status ≤ 299

/-- User-facing message the script builds from a non-success upload status
(sync.js lines 1011-1028): the if/else chain mapping 503, 401, 400, 404,
429, 500, then generic 4xx and 5xx, to distinct messages. -/
def classifyMessage (status : Nat) (responseText : String) : String :=
  if status = 503 then
    "Lunch Money service is temporarily unavailable (503). Please try again in a few minutes."
  else if status = 401 then
    "Invalid Lunch Money API token. Please check your LUNCHMONEY_TOKEN."
  else if status = 400 then
    "Lunch Money bad request (400): " ++ responseText.take 200
  else if status = 404 then
    "Lunch Money resource not found (404). Check your manual_account_id."
  else if status = 429 then
    "Lunch Money rate limit exceeded (429). Please try again later."
  else if status = 500 then
    "Lunch Money server error. Please try again later."
  else if 400 ≤ status && status < 500 then
    "Lunch Money client error (" ++ toString status ++ "). Please check your configuration."
  else if 500 ≤ status then
    "Lunch Money server error (" ++ toString status ++ "). The service may be experiencing issues."
  else
    "Lunch Money API error (" ++ toString status ++ ")"

/-- Typed rendering of the three throw sites inside the upload loop. -/
inductive UploadError where
  | api (status : Nat) (message : String)
  | invalidJson (preview : String)
  | bodyError (message : String)
deriving Repr, DecidableEq

/-- Per-batch inserted/skipped counts the script derives from a response
body: v2 `transactions`/`skipped_duplicates` lists, v1 `ids` fallback, and
`(0, 0)` for an unknown format (which only logs a warning). -/
def countsOf (body : LMBody) : Nat × Nat :=
  match body.transactions with
  | some l => (l.length, (body.skipped_duplicates.getD []).length)
  | none =>
    match body.ids with
    | some l => (l.length, 0)
    | none => (0, 0)

/-- State accumulated by the upload loop: how many POST requests were
issued, the per-batch `(inserted, skipped)` counts reported for each
completed batch (in order), and the response bodies pushed to `results`. -/
structure UploadState where
  submitted : Nat
  completedCounts : List (Nat × Nat)
  results : List LMBody
deriving Repr, DecidableEq

/-- The `for` loop of `sendToLunchMoney` over the prepared batches,
starting at batch index `i`; `respond i` is the Lunch Money response to the
i-th batch request.  A non-success status (neither `response.ok` nor 201)
aborts with the status-classified message; an unparsable body or an
`error` field in the body aborts likewise; otherwise the batch's counts are
recorded and the loop continues.  On abort, no later batch is submitted. -/
def runBatches (respond : Nat → LMResponse) (i : Nat) :
    List (List LMTransaction) → UploadState × Option UploadError
  | [] => (⟨0, [], []⟩, none)
  | _batch :: rest =>
    let resp := respond i
    if ¬(respOk resp.status = true) ∧ resp.status ≠ 201 then
      (⟨1, [], []⟩, some (.api resp.status (classifyMessage resp.status resp.bodyText)))
    else
      match resp.body with
      | none =>
        (⟨1, [], []⟩, some (.invalidJson (resp.bodyText.take 200)))
      | some body =>
        match body.error with
        | some e =>
          (⟨1, [], []⟩, some (.bodyError ("Lunch Money API error: " ++ e)))
        | none =>
          let counts := countsOf body
          let restRun := runBatches respond (i + 1) rest
          (⟨restRun.1.submitted + 1, counts :: restRun.1.completedCounts,
            body :: restRun.1.results⟩, restRun.2)

/-- Partition into batches of at most 500, mirroring the
`for (i = 0; i < length; i += 500) slice(i, i + 500)` loop.  The recursion
is fuelled by the list length, which always suffices. -/
def mkBatchesGo (fuel : Nat) (l : List LMTransaction) :
    List (List LMTransaction) :=
  match fuel, l with
  | _, [] => []
  | 0, _ => []
  | f + 1, l => l.take 500 :: mkBatchesGo f (l.drop 500)

def mkBatches (l : List LMTransaction) : List (List LMTransaction) :=
  mkBatchesGo l.length l

/-- Sum of the per-body inserted counts, as the totalling loop computes. -/
def sumInserted (results : List LMBody) : Nat :=
  (results.map (fun r => (countsOf r).1)).sum

def sumSkipped (results : List LMBody) : Nat :=
  (results.map (fun r => (countsOf r).2)).sum

/-- Full record of one `sendToLunchMoney` run. -/
structure UploadRun where
  submitted : Nat
  completedCounts : List (Nat × Nat)
  outcome : Except UploadError (List LMBody)
  totalInserted : Nat
  totalSkipped : Nat
  countMismatchWarning : Bool
deriving Repr

/-- Lean embedding of `sendToLunchMoney(transactions)` (sync.js lines
916-1172): partition into batches of 500, submit sequentially, abort the
whole run on the first failed batch; after all batches succeed, total the
inserted/skipped counts and set the non-fatal reconciliation warning when
they do not add up to the number of transactions submitted. -/
def sendToLunchMoney (transactions : List LMTransaction)
    (respond : Nat → LMResponse) : UploadRun :=
  let batches := mkBatches transactions
  let run := runBatches respond 0 batches
  match run.2 with
  | some e =>
    { submitted := run.1.submitted
      completedCounts := run.1.completedCounts
      outcome := .error e
      totalInserted := 0
      totalSkipped := 0
      countMismatchWarning := false }
  | none =>
    let ti := sumInserted run.1.results
    let ts := sumSkipped run.1.results
    { submitted := run.1.submitted
      completedCounts := run.1.completedCounts
      outcome := .ok run.1.results
      totalInserted := ti
      totalSkipped := ts
      countMismatchWarning := ti + ts ≠ transactions.length }

/-- A response the upload loop accepts and continues past: success status
(`response.ok` or 201), a parsable body, and no `error` field in it. -/
def goodResponse (r : LMResponse) (b : LMBody) : Prop :=
  (respOk r.status = true ∨ r.status = 201) ∧ r.body = some b ∧ b.error = none

/-- Payload of one transaction-search response whose HTTP status was ok:
either a JSON array of raw transactions or some non-array JSON value
(rendered to the string the error message would embed). -/
inductive FetchPayload where
  | arr (txs : List RawTransaction)
  | other (preview : String)

/-- Record of one `fetchTransactions` run: how many range requests were
issued and the overall result (all accumulated transactions, or the error
the loop threw). -/
structure FetchRun where
  requested : Nat
  result : Except String (List RawTransaction)

/-- The `for` loop of `fetchTransactions` over the date chunks, starting at
chunk index `i`.  `respond i = .error e` models a non-ok HTTP response for
the i-th chunk (the loop throws), `.ok (.other p)` a non-array payload (the
loop throws "Invalid transactions response"), `.ok (.arr txs)` a normal
page that is concatenated onto the accumulator. -/
def fetchChunksGo (respond : Nat → Except String FetchPayload) (i : Nat) :
    List (Int × Int) → FetchRun
  | [] => ⟨0, .ok []⟩
  | _chunk :: rest =>
    match respond i with
    | .error e => ⟨1, .error ("Failed to fetch transactions: " ++ e)⟩
    | .ok (.other preview) =>
        ⟨1, .error ("Invalid transactions response: " ++ preview)⟩
    | .ok (.arr txs) =>
        let restRun := fetchChunksGo respond (i + 1) rest
        ⟨restRun.requested + 1, restRun.result.map (fun acc => txs ++ acc)⟩

/-- Lean embedding of `fetchTransactions` (sync.js lines 653-745): iterate
`getDateChunks` in order, one authenticated request per range,
concatenating results; any non-ok or non-array response aborts the whole
fetch. -/
def fetchTransactions (today : Int) (syncDays : Int)
    (respond : Nat → Except String FetchPayload) : FetchRun :=
  fetchChunksGo respond 0 (getDateChunks today syncDays)

/-- Error message string carried by an `UploadError`, as thrown. -/
def uploadErrorMessage : UploadError → String
  | .api _ m => m
  | .invalidJson p => "Invalid JSON response from Lunch Money: " ++ p
  | .bodyError m => m

/-- Observable outcome of one `sync()` run (sync.js lines 1177-1346), from
account determination onward, together with effect markers recording which
stages ran: whether the import-tag creation request was attempted, how many
transactions were transformed (`none` when the Transformer never ran), and
the upload run (`none` when no upload request was issued). -/
structure SyncOutcome where
  tagCreateAttempted : Bool
  transformedCount : Option Nat
  uploadRun : Option UploadRun
  success : Bool
  message : String
  transactionsCount : Nat
  syncedCount : Nat
  insertedCount : Nat
  skippedCount : Nat
  accountNumber : String

/-- Lean embedding of the orchestration in `sync()` after login and account
determination: fetch (driven by the Date Chunker), the zero-transaction
short circuit, import-tag creation (`tagOutcome` is the result of
`createTag`), transform, and batched upload; any stage failure makes the
run fail (the thrown error reaches the catch block, which reports
`success: false`).  Counts not present in the source's result object for a
given exit path are reported as 0 here. -/
def sync (today : Int) (syncDays : Int) (accountNumber : String)
    (fetchRespond : Nat → Except String FetchPayload)
    (tagOutcome : Except String Nat)
    (uploadRespond : Nat → LMResponse)
    (assetId : Int) (suffix : Option String) : SyncOutcome :=
  let fr := fetchTransactions today syncDays fetchRespond
  match fr.result with
  | .error e =>
      { tagCreateAttempted := false
        transformedCount := none
        uploadRun := none
        success := false
        message := e
        transactionsCount := 0
        syncedCount := 0
        insertedCount := 0
        skippedCount := 0
        accountNumber := accountNumber }
  | .ok transactions =>
    if transactions.length = 0 then
      { tagCreateAttempted := false
        transformedCount := none
        uploadRun := none
        success := true
        message := "No transactions found for period " ++
          toString (today - syncDays) ++ " to " ++ toString today
        transactionsCount := 0
        syncedCount := 0
        insertedCount := 0
        skippedCount := 0
        accountNumber := accountNumber }
    else
      match tagOutcome with
      | .error e =>
          { tagCreateAttempted := true
            transformedCount := none
            uploadRun := none
            success := false
            message := e
            transactionsCount := 0
            syncedCount := 0
            insertedCount := 0
            skippedCount := 0
            accountNumber := accountNumber }
      | .ok tagId =>
        let lmTransactions := transformTransactions assetId suffix transactions tagId
        let up := sendToLunchMoney lmTransactions uploadRespond
        match up.outcome with
        | .error e =>
            { tagCreateAttempted := true
              transformedCount := some lmTransactions.length
              uploadRun := some up
              success := false
              message := uploadErrorMessage e
              transactionsCount := 0
              syncedCount := 0
              insertedCount := 0
              skippedCount := 0
              accountNumber := accountNumber }
        | .ok _results =>
            { tagCreateAttempted := true
              transformedCount := some lmTransactions.length
              uploadRun := some up
              success := true
              message := "Synced: " ++ toString up.totalInserted ++
                " inserted, " ++ toString up.totalSkipped ++ " skipped (of " ++
                toString lmTransactions.length ++ " total)"
              transactionsCount := transactions.length
              syncedCount := lmTransactions.length
              insertedCount := up.totalInserted
              skippedCount := up.totalSkipped
              accountNumber := accountNumber }

/-- Numeric value of a list of decimal digit characters. -/
def digitsToNat (ds : List Char) : Nat :=
  ds.foldl (fun a c => a * 10 + (c.toNat - '0'.toNat)) 0

/-- Parse a decimal digit run with the given sign; `none` when there are no
leading digits (JavaScript `parseInt` returns NaN). -/
def parseDigits (r : List Char) (sign : Int) : Option Int :=
  let ds := r.takeWhile (fun c => c.isDigit)
  if ds.isEmpty then none else some (sign * digitsToNat ds)

/-- Model of JavaScript `parseInt` on the decimal strings relevant here:
skip leading whitespace, accept an optional sign, then parse the leading
run of decimal digits, ignoring any trailing characters; `none` models
NaN. -/
def jsParseInt (s : String) : Option Int :=
  match s.data.dropWhile (fun c => c.isWhitespace) with
  | '-' :: r => parseDigits r (-1)
  | '+' :: r => parseDigits r 1
  | r => parseDigits r 1

/-- Startup validation applied to each required environment value (sync.js
lines 33-44): fail when the value is missing/empty (falsy) or contains the
placeholder marker `your_`. -/
def requiredVarOk (value : Option String) : Bool :=
  match value with
  | none => false
  | some s =>
    if s = "" then false
    else if ("your_").data <:+: s.data then false
    else true

/-- Lean embedding of `SYNC_DAYS_PARSED = (SYNC_DAYS_STR ? parseInt(SYNC_DAYS_STR) : null) || 30`
(sync.js lines 21-47) for a present `SYNC_DAYS` string: a NaN or zero parse
is falsy and silently falls back to 30. -/
def SYNC_DAYS_PARSED (syncDaysStr : String) : Int :=
  match jsParseInt syncDaysStr with
  | none => 30
  | some n => if n = 0 then 30 else n

/-- Concrete inputs for the orchestrator witnesses. -/
def fetchEmpty : Nat → Except String FetchPayload := fun _ => .ok (.arr [])

def respond201 : Nat → LMResponse := fun _ =>
  { status := 201
    bodyText := "ok"
    body := some
      { error := none
        transactions := some []
        skipped_duplicates := some []
        ids := none } }

def fetchOneTx : Nat → Except String FetchPayload := fun i =>
  if i = 0 then .ok (.arr [sampleDebit]) else .ok (.other "null")

/-- Concrete transformed transactions and responses for the uploader
witnesses. -/
def lmSample : LMTransaction :=
  { date := "2026-01-15"
    payee := "COFFEE SHOP"
    amount := -(42/10)
    manual_account_id := 5
    tag_ids := [9]
    notes := ""
    external_id := "2026-01-15-120000-7-3-4.2"
    status := "unreviewed" }

def respond401 : Nat → LMResponse := fun _ =>
  { status := 401, bodyText := "unauthorized", body := none }

def fetchOneAlways : Nat → Except String FetchPayload := fun _ =>
  .ok (.arr [sampleDebit])

/-- The reconciliation scenario: a batch of 3 records answered 201 with two
inserted transactions and one skipped duplicate. -/
def scenarioBody : LMBody :=
  { error := none
    transactions := some ["a", "b"]
    skipped_duplicates := some ["c"]
    ids := none }

def scenarioRespond : Nat → LMResponse := fun _ =>
  { status := 201, bodyText := "created", body := some scenarioBody }

def scenarioTx (eid : String) : LMTransaction :=
  { date := "2026-01-15"
    payee := "P"
    amount := 1
    manual_account_id := 5
    tag_ids := [9]
    notes := ""
    external_id := eid
    status := "unreviewed" }

def scenarioTxs : List LMTransaction :=
  [scenarioTx "a", scenarioTx "b", scenarioTx "c"]

/-- Every chunk emitted from `current` starts no earlier than `current`,
is well-formed (`from ≤ to`), ends no later than `today`, and spans at most
30 days. -/
theorem chunksFromFuel_mem (today : Int) :
    ∀ (fuel : Nat) (current : Int) (p : Int × Int),
      p ∈ chunksFromFuel today fuel current →
      current ≤ p.1 ∧ p.1 ≤ p.2 ∧ p.2 ≤ today ∧ p.2 ≤ p.1 + 30 := by
  intro fuel
  induction fuel with
  | zero => intro current p hp; simp [chunksFromFuel] at hp
  | succ f ih =>
    intro current p hp
    by_cases h : current < today
    · rw [chunksFromFuel, if_pos h] at hp
      rcases List.mem_cons.mp hp with h1 | h1
      · subst h1; constructor <;> [omega; constructor] <;> [omega; omega]
      · have := ih _ _ h1
        omega
    · rw [chunksFromFuel, if_neg h] at hp
      simp at hp

/-- When there is fuel left and `current < today`, the first chunk emitted
is `(current, min (current + 30) today)`. -/
theorem chunksFromFuel_head (today : Int) (fuel : Nat) (current : Int)
    (hf : 0 < fuel) (hc : current < today) :
    (chunksFromFuel today fuel current).head? =
      some (current, min (current + 30) today) := by
  cases fuel with
  | zero => omega
  | succ f => rw [chunksFromFuel, if_pos hc]; rfl

/-- Consecutive chunks are exactly one day apart: the next chunk's `from`
field is the previous chunk's `to` field plus one. -/
theorem chunksFromFuel_chain (today : Int) :
    ∀ (fuel : Nat) (current : Int),
      List.Chain' (fun a b : Int × Int => b.1 = a.2 + 1)
        (chunksFromFuel today fuel current) := by
  intro fuel
  induction fuel with
  | zero => intro current; simp [chunksFromFuel]
  | succ f ih =>
    intro current
    by_cases h : current < today
    · rw [chunksFromFuel, if_pos h]
      refine List.chain'_cons'.mpr ⟨?_, ih _⟩
      intro b hb
      cases f with
      | zero => simp [chunksFromFuel] at hb
      | succ f2 =>
        by_cases h2 : min (current + 30) today + 1 < today
        · rw [chunksFromFuel_head today (f2 + 1) _ (Nat.succ_pos f2) h2] at hb
          simp at hb
          rw [← hb]
        · rw [chunksFromFuel, if_neg h2] at hb
          simp at hb
    · rw [chunksFromFuel, if_neg h]; simp

/-- Chunks are pairwise ordered oldest-to-newest: any chunk strictly earlier
in the list ends strictly before any later chunk starts. -/
theorem chunksFromFuel_pairwise (today : Int) :
    ∀ (fuel : Nat) (current : Int),
      List.Pairwise (fun a b : Int × Int => a.2 < b.1)
        (chunksFromFuel today fuel current) := by
  intro fuel
  induction fuel with
  | zero => intro current; simp [chunksFromFuel]
  | succ f ih =>
    intro current
    by_cases h : current < today
    · rw [chunksFromFuel, if_pos h]
      refine List.pairwise_cons.mpr ⟨?_, ih _⟩
      intro b hb
      have := chunksFromFuel_mem today f _ b hb
      simp only
      omega
    · rw [chunksFromFuel, if_neg h]; simp

/-- C1: the Date Chunker does not always cover the window
`[today - lookbackDays, today]`.  At `lookbackDays = 31` with `today` fixed
at day 100, `getDateChunks` returns the single range `[69, 99]`: no returned
range contains day 100, so `today` itself is silently excluded from the
fetch window (the loop stops because `current` lands exactly on `today`),
even though the sync result reports the covered period as ending at
`today`. -/
theorem getDateChunks_misses_today :
    getDateChunks 100 31 = [(69, 99)] ∧
      ∀ p ∈ getDateChunks 100 31, ¬(p.1 ≤ 100 ∧ 100 ≤ p.2) := by
  decide

/-- C2, counterexample: with `today = 100` and `lookbackDays = 50` the first
range in the returned list is `(50, 80)`, which is the OLDEST range, not the
most recent one: it does not end at `today = 100`. -/
theorem getDateChunks_newest_first_counterexample :
    (getDateChunks 100 50).head? = some (50, 80) ∧
      (getDateChunks 100 50).head?.map Prod.snd ≠ some (100 : Int) := by
  decide

/-- C2, amended: for every fixed `today` and every `lookbackDays > 0` the
chunk list is nonempty and ordered OLDEST-first: the first range starts at
`today - lookbackDays`, each consecutive pair of ranges is exactly one day
apart (the next range's `from` is the previous range's `to` plus one), and
every later range is strictly newer than every earlier one — so the most
recent range is the last element of the list, not the first. -/
theorem getDateChunks_oldest_first (today syncDays : Int) (h : 0 < syncDays) :
    getDateChunks today syncDays ≠ [] ∧
    (getDateChunks today syncDays).head?.map Prod.fst = some (today - syncDays) ∧
    List.Chain' (fun a b : Int × Int => b.1 = a.2 + 1) (getDateChunks today syncDays) ∧
    List.Pairwise (fun a b : Int × Int => a.2 < b.1) (getDateChunks today syncDays) := by
  have hf : 0 < syncDays.toNat := by omega
  have hc : today - syncDays < today := by omega
  have hh := chunksFromFuel_head today syncDays.toNat (today - syncDays) hf hc
  refine ⟨?_, ?_, chunksFromFuel_chain today _ _, chunksFromFuel_pairwise today _ _⟩
  · unfold getDateChunks
    intro he
    rw [he] at hh
    simp at hh
  · unfold getDateChunks
    rw [hh]
    rfl

/-- Witness for `getDateChunks_oldest_first` at `today = 100`,
`lookbackDays = 50`. -/
theorem getDateChunks_oldest_first_witness :
    getDateChunks 100 50 ≠ [] ∧
    (getDateChunks 100 50).head?.map Prod.fst = some ((100 : Int) - 50) ∧
    List.Chain' (fun a b : Int × Int => b.1 = a.2 + 1) (getDateChunks 100 50) ∧
    List.Pairwise (fun a b : Int × Int => a.2 < b.1) (getDateChunks 100 50) :=
  getDateChunks_oldest_first 100 50 (by norm_num)

/-- C3: the Normalized Transaction's amount sign comes solely from the
`debitCredit` indicator, never from the sign of the raw amount: a DEBIT
gets the ledger's expense sign (negative of the magnitude), any other
indicator gets the positive magnitude, the magnitude always equals the
absolute value of the parsed billed amount — and flipping the sign of every
raw `billingAmount` leaves all output amounts unchanged. -/
theorem transformTransactions_sign (assetId : Int) (suffix : Option String)
    (tagId : Nat) (ts : List RawTransaction) :
    List.Forall₂
      (fun (t : RawTransaction) (u : LMTransaction) =>
        (t.debitCredit = "DEBIT" → u.amount = -|t.billingAmount|) ∧
        (t.debitCredit ≠ "DEBIT" → u.amount = |t.billingAmount|) ∧
        |u.amount| = |t.billingAmount|)
      ts (transformTransactions assetId suffix ts tagId) ∧
    (transformTransactions assetId suffix
        (ts.map (fun t => { t with billingAmount := -t.billingAmount })) tagId).map
        (fun u => u.amount) =
      (transformTransactions assetId suffix ts tagId).map (fun u => u.amount) := by
  constructor
  · induction ts with
    | nil => simp [transformTransactions]
    | cons t ts ih =>
      simp only [transformTransactions, List.map_cons] at ih ⊢
      refine List.Forall₂.cons ?_ ih
      by_cases hd : t.debitCredit = "DEBIT"
      · refine ⟨fun _ => ?_, fun h => absurd hd h, ?_⟩ <;>
          simp [transformTx, hd, abs_abs]
      · refine ⟨fun h => absurd h hd, fun _ => ?_, ?_⟩ <;>
          simp [transformTx, hd, abs_abs]
  · induction ts with
    | nil => simp [transformTransactions]
    | cons t ts ih =>
      simp only [transformTransactions, List.map_cons] at ih ⊢
      rw [ih]
      by_cases hd : t.debitCredit = "DEBIT" <;> simp [transformTx, hd, abs_neg]

theorem transformTransactions_sign_witness :
    List.Forall₂
      (fun (t : RawTransaction) (u : LMTransaction) =>
        (t.debitCredit = "DEBIT" → u.amount = -|t.billingAmount|) ∧
        (t.debitCredit ≠ "DEBIT" → u.amount = |t.billingAmount|) ∧
        |u.amount| = |t.billingAmount|)
      [sampleDebit, sampleCredit]
      (transformTransactions 5 none [sampleDebit, sampleCredit] 9) ∧
    (transformTransactions 5 none
        ([sampleDebit, sampleCredit].map
          (fun t => { t with billingAmount := -t.billingAmount })) 9).map
        (fun u => u.amount) =
      (transformTransactions 5 none [sampleDebit, sampleCredit] 9).map
        (fun u => u.amount) :=
  transformTransactions_sign 5 none 9 [sampleDebit, sampleCredit]

/-- C4: the dedup key (`external_id`) of a transformed transaction is the
dash-separated concatenation of transaction date, processing time (with the
placeholder `000000` when absent), batch number, batch sequence number and
billed amount (plus the optional run-wide suffix); consequently two raw
transactions that agree on processing time, batch number, batch sequence
number and billed amount but differ in transaction date always get
different dedup keys. -/
theorem transformTransactions_dedup_key (assetId : Int) (suffix : Option String)
    (tagId : Nat) :
    (∀ t : RawTransaction,
        (transformTransactions assetId suffix [t] tagId).map
            (fun u => u.external_id) =
          [(t.transactionDate ++ "-" ++ t.processingTime.getD "000000" ++ "-" ++
              toString t.batchNr ++ "-" ++ toString t.batchSequenceNr ++ "-" ++
              toString t.billingAmount) ++
            (match suffix with | some s => "-" ++ s | none => "")]) ∧
    (∀ t1 t2 : RawTransaction,
      t1.processingTime = t2.processingTime →
      t1.batchNr = t2.batchNr →
      t1.batchSequenceNr = t2.batchSequenceNr →
      t1.billingAmount = t2.billingAmount →
      t1.transactionDate ≠ t2.transactionDate →
      (transformTransactions assetId suffix [t1] tagId).map
          (fun u => u.external_id) ≠
        (transformTransactions assetId suffix [t2] tagId).map
          (fun u => u.external_id)) := by
  constructor
  · intro t
    simp only [transformTransactions, List.map_cons, List.map_nil, transformTx]
    cases suffix <;> simp [String.append_assoc]
  · intro t1 t2 hpt hbn hbs hba hdate hcontra
    apply hdate
    apply String.ext
    cases suffix with
    | none =>
      simp only [transformTransactions, List.map_cons, List.map_nil,
        transformTx, List.cons.injEq, and_true] at hcontra
      rw [hpt, hbn, hbs, hba] at hcontra
      have hd := congrArg String.data hcontra
      simp only [String.data_append, List.append_assoc] at hd
      exact List.append_cancel_right hd
    | some sfx =>
      simp only [transformTransactions, List.map_cons, List.map_nil,
        transformTx, List.cons.injEq, and_true] at hcontra
      rw [hpt, hbn, hbs, hba] at hcontra
      have hd := congrArg String.data hcontra
      simp only [String.data_append, List.append_assoc] at hd
      exact List.append_cancel_right hd

theorem transformTransactions_dedup_key_witness :
    (transformTransactions 5 none [sampleDebit] 9).map
        (fun u => u.external_id) ≠
      (transformTransactions 5 none [sampleDebitOtherDay] 9).map
        (fun u => u.external_id) :=
  (transformTransactions_dedup_key 5 none 9).2 sampleDebit sampleDebitOtherDay
    rfl rfl rfl rfl (by decide)

/-- C5: account resolution performs exactly this case analysis, in the
source's order: zero fetched accounts fail with the "no accounts" error
regardless of configuration; with a configured id the resolution succeeds
with that id exactly when some fetched descriptor's `accountNumber` matches
it, and otherwise (the account list being nonempty) fails with the
"account not found" error; exactly one account with no configured id is
auto-selected; more than one account with no configured id fails with the
ambiguous-account report carrying one entry per fetched account. -/
theorem determineAccountNumber_cases (preview : Account → PreviewOutcome) :
    (∀ configured,
        determineAccountNumber [] configured preview = .errNoAccounts) ∧
    (∀ (accounts : List Account) (id : String),
        (determineAccountNumber accounts (some id) preview = .ok id ↔
          ∃ a ∈ accounts, a.accountNumber = id) ∧
        (accounts ≠ [] → (∀ a ∈ accounts, a.accountNumber ≠ id) →
          determineAccountNumber accounts (some id) preview =
            .errNotFound id)) ∧
    (∀ a : Account,
        determineAccountNumber [a] none preview = .ok a.accountNumber) ∧
    (∀ accounts : List Account, 2 ≤ accounts.length →
        ∃ details,
          determineAccountNumber accounts none preview =
            .errAmbiguous details ∧
          details.length = accounts.length) := by
  refine ⟨?_, ?_, ?_, ?_⟩
  · intro configured
    cases configured <;> rfl
  · intro accounts id
    cases accounts with
    | nil =>
      constructor
      · constructor
        · intro h
          simp [determineAccountNumber] at h
        · intro h
          simp at h
      · intro h
        exact absurd rfl h
    | cons a as =>
      cases hf : (a :: as).find? (fun acc => acc.accountNumber = id) with
      | some acc =>
        have hmem := List.mem_of_find?_eq_some hf
        have hprop := List.find?_some hf
        simp only [decide_eq_true_eq] at hprop
        constructor
        · constructor
          · intro _
            exact ⟨acc, hmem, hprop⟩
          · intro _
            simp [determineAccountNumber, hf]
        · intro _ hnone
          exact absurd hprop (hnone acc hmem)
      | none =>
        have hnone := List.find?_eq_none.mp hf
        simp only [decide_eq_true_eq] at hnone
        constructor
        · constructor
          · intro h
            simp [determineAccountNumber, hf] at h
          · rintro ⟨a2, hmem, hprop⟩
            exact absurd hprop (hnone a2 hmem)
        · intro _ _
          simp [determineAccountNumber, hf]
  · intro a
    rfl
  · intro accounts h2
    match accounts with
    | a :: b :: rest =>
      exact ⟨(a :: b :: rest).map (accountDetailOf preview), rfl, by simp⟩

theorem determineAccountNumber_cases_witness :
    determineAccountNumber [] none previewNone = .errNoAccounts ∧
    determineAccountNumber [acctA] (some "999") previewNone =
      .errNotFound "999" ∧
    determineAccountNumber [acctA] none previewNone =
      .ok acctA.accountNumber ∧
    ∃ details,
      determineAccountNumber [acctA, acctB] none previewNone =
        .errAmbiguous details ∧
      details.length = [acctA, acctB].length :=
  ⟨(determineAccountNumber_cases previewNone).1 none,
   ((determineAccountNumber_cases previewNone).2.1 [acctA] "999").2
     (by simp) (by decide),
   (determineAccountNumber_cases previewNone).2.2.1 acctA,
   (determineAccountNumber_cases previewNone).2.2.2 [acctA, acctB]
     (by decide)⟩

/-- Hitting a non-success status at batch `k` (relative to start index `i`)
after `k` accepted batches stops the loop: exactly `k + 1` requests were
issued, the `k` completed batches' counts and bodies were recorded, and the
loop result is the status-classified error. -/
theorem runBatches_fail (respond : Nat → LMResponse) (B : Nat → LMBody) :
    ∀ (k : Nat) (bs : List (List LMTransaction)) (i : Nat),
      k < bs.length →
      (∀ j < k, goodResponse (respond (i + j)) (B (i + j))) →
      ¬(respOk (respond (i + k)).status = true) →
      (respond (i + k)).status ≠ 201 →
      runBatches respond i bs =
        (⟨k + 1,
          (List.range k).map (fun j => countsOf (B (i + j))),
          (List.range k).map (fun j => B (i + j))⟩,
         some (.api (respond (i + k)).status
           (classifyMessage (respond (i + k)).status (respond (i + k)).bodyText))) := by
  intro k
  induction k with
  | zero =>
    intro bs i hlen hgood hfail1 hfail2
    match bs with
    | b :: rest =>
      simp only [Nat.add_zero] at hfail1 hfail2
      simp only [runBatches, List.range_zero, List.map_nil]
      rw [if_pos ⟨hfail1, hfail2⟩]
      simp
  | succ k ih =>
    intro bs i hlen hgood hfail1 hfail2
    match bs with
    | b :: rest =>
      have hg0 := hgood 0 (Nat.succ_pos k)
      simp only [Nat.add_zero] at hg0
      obtain ⟨hok, hbody, herr⟩ := hg0
      have hcond : ¬(¬(respOk (respond i).status = true) ∧ (respond i).status ≠ 201) := by
        rcases hok with h | h
        · intro hc; exact hc.1 h
        · intro hc; exact hc.2 h
      simp only [runBatches]
      rw [if_neg hcond, hbody]
      simp only [herr]
      have hrest := ih rest (i + 1) (by simpa using hlen)
        (fun j hj => by
          have := hgood (j + 1) (by omega)
          simpa [Nat.add_assoc, Nat.add_comm 1 j] using this)
        (by
          have h2 : i + 1 + k = i + (k + 1) := by omega
          rw [h2]; exact hfail1)
        (by
          have h2 : i + 1 + k = i + (k + 1) := by omega
          rw [h2]; exact hfail2)
      have hmap1 : (List.range k).map (fun j => countsOf (B (i + 1 + j))) =
          (List.range k).map ((fun j => countsOf (B (i + j))) ∘ Nat.succ) := by
        apply List.map_congr_left
        intro j hj
        simp only [Function.comp_apply]
        have h2 : i + 1 + j = i + (j + 1) := by omega
        rw [h2]
      have hmap2 : (List.range k).map (fun j => B (i + 1 + j)) =
          (List.range k).map ((fun j => B (i + j)) ∘ Nat.succ) := by
        apply List.map_congr_left
        intro j hj
        simp only [Function.comp_apply]
        have h2 : i + 1 + j = i + (j + 1) := by omega
        rw [h2]
      rw [hrest]
      have hik : i + 1 + k = i + (k + 1) := by omega
      rw [hik, List.range_succ_eq_map, List.map_cons, List.map_cons,
        List.map_map, List.map_map, Nat.add_zero, ← hmap1, ← hmap2]
      simp

/-- When every batch is accepted, the loop completes: one request per batch,
all counts and bodies recorded, no error. -/
theorem runBatches_ok (respond : Nat → LMResponse) (B : Nat → LMBody) :
    ∀ (bs : List (List LMTransaction)) (i : Nat),
      (∀ j < bs.length, goodResponse (respond (i + j)) (B (i + j))) →
      runBatches respond i bs =
        (⟨bs.length,
          (List.range bs.length).map (fun j => countsOf (B (i + j))),
          (List.range bs.length).map (fun j => B (i + j))⟩, none) := by
  intro bs
  induction bs with
  | nil =>
    intro i hgood
    simp [runBatches]
  | cons b rest ih =>
    intro i hgood
    have hg0 := hgood 0 (by simp)
    simp only [Nat.add_zero] at hg0
    obtain ⟨hok, hbody, herr⟩ := hg0
    have hcond : ¬(¬(respOk (respond i).status = true) ∧ (respond i).status ≠ 201) := by
      rcases hok with h | h
      · intro hc; exact hc.1 h
      · intro hc; exact hc.2 h
    simp only [runBatches]
    rw [if_neg hcond, hbody]
    simp only [herr]
    have hrest := ih (i + 1)
      (fun j hj => by
        have := hgood (j + 1) (by simpa using hj)
        simpa [Nat.add_assoc, Nat.add_comm 1 j] using this)
    rw [hrest]
    have hmap1 : (List.range rest.length).map (fun j => countsOf (B (i + 1 + j))) =
        (List.range rest.length).map ((fun j => countsOf (B (i + j))) ∘ Nat.succ) := by
      apply List.map_congr_left
      intro j hj
      simp only [Function.comp_apply]
      have h2 : i + 1 + j = i + (j + 1) := by omega
      rw [h2]
    have hmap2 : (List.range rest.length).map (fun j => B (i + 1 + j)) =
        (List.range rest.length).map ((fun j => B (i + j)) ∘ Nat.succ) := by
      apply List.map_congr_left
      intro j hj
      simp only [Function.comp_apply]
      have h2 : i + 1 + j = i + (j + 1) := by omega
      rw [h2]
    rw [List.length_cons, List.range_succ_eq_map, List.map_cons, List.map_cons,
      List.map_map, List.map_map, Nat.add_zero, ← hmap1, ← hmap2]
    simp

/-- A non-array payload at chunk `k` (relative to start index `i`), after
`k` array pages, stops the fetch loop: exactly `k + 1` requests were issued
and the loop result is the "Invalid transactions response" error, carrying
none of the previously accumulated transactions. -/
theorem fetchChunksGo_nonarray (respond : Nat → Except String FetchPayload) :
    ∀ (k : Nat) (chunks : List (Int × Int)) (i : Nat) (preview : String),
      k < chunks.length →
      (∀ j < k, ∃ txs, respond (i + j) = .ok (.arr txs)) →
      respond (i + k) = .ok (.other preview) →
      fetchChunksGo respond i chunks =
        ⟨k + 1, .error ("Invalid transactions response: " ++ preview)⟩ := by
  intro k
  induction k with
  | zero =>
    intro chunks i preview hlen hgood hk
    match chunks with
    | c :: rest =>
      simp only [Nat.add_zero] at hk
      simp only [fetchChunksGo, hk]
  | succ k ih =>
    intro chunks i preview hlen hgood hk
    match chunks with
    | c :: rest =>
      obtain ⟨txs, htxs⟩ := hgood 0 (Nat.succ_pos k)
      simp only [Nat.add_zero] at htxs
      simp only [fetchChunksGo, htxs]
      have hrest := ih rest (i + 1) preview (by simpa using hlen)
        (fun j hj => by
          obtain ⟨t2, h2⟩ := hgood (j + 1) (by omega)
          have he : i + 1 + j = i + (j + 1) := by omega
          exact ⟨t2, by rwa [he]⟩)
        (by
          have he : i + 1 + k = i + (k + 1) := by omega
          rwa [he])
      rw [hrest]
      simp [Except.map]

/-- C8: a non-array transaction-search payload for any date range makes the
whole fetch fail immediately: no later range is requested (exactly `k + 1`
of the chunk requests are issued when the failure is at chunk `k`), the
transactions accumulated from earlier ranges are discarded (the fetch
result is the error, carrying no transactions), and the run terminates in
failure with no tag-creation and no upload request issued. -/
theorem fetchTransactions_nonarray_aborts (today syncDays : Int)
    (respond : Nat → Except String FetchPayload) (k : Nat) (preview : String)
    (accountNumber : String) (tagOutcome : Except String Nat)
    (uploadRespond : Nat → LMResponse) (assetId : Int) (suffix : Option String)
    (hk : k < (getDateChunks today syncDays).length)
    (hgood : ∀ j < k, ∃ txs, respond j = .ok (.arr txs))
    (hfail : respond k = .ok (.other preview)) :
    (fetchTransactions today syncDays respond).requested = k + 1 ∧
    (fetchTransactions today syncDays respond).result =
      .error ("Invalid transactions response: " ++ preview) ∧
    (sync today syncDays accountNumber respond tagOutcome uploadRespond
        assetId suffix).success = false ∧
    (sync today syncDays accountNumber respond tagOutcome uploadRespond
        assetId suffix).uploadRun = none ∧
    (sync today syncDays accountNumber respond tagOutcome uploadRespond
        assetId suffix).tagCreateAttempted = false := by
  have hft : fetchTransactions today syncDays respond =
      ⟨k + 1, .error ("Invalid transactions response: " ++ preview)⟩ := by
    apply fetchChunksGo_nonarray respond k (getDateChunks today syncDays) 0 preview hk
    · intro j hj
      simpa using hgood j hj
    · simpa using hfail
  refine ⟨by rw [hft], by rw [hft], ?_, ?_, ?_⟩ <;>
    simp [sync, hft]

theorem fetchTransactions_nonarray_aborts_witness :
    (fetchTransactions 100 40 fetchOneTx).requested = 1 + 1 ∧
    (fetchTransactions 100 40 fetchOneTx).result =
      .error ("Invalid transactions response: " ++ "null") ∧
    (sync 100 40 "111" fetchOneTx (.ok 1) respond201 5 none).success = false ∧
    (sync 100 40 "111" fetchOneTx (.ok 1) respond201 5 none).uploadRun = none ∧
    (sync 100 40 "111" fetchOneTx (.ok 1) respond201 5 none).tagCreateAttempted =
      false :=
  fetchTransactions_nonarray_aborts 100 40 fetchOneTx 1 "null" "111" (.ok 1)
    respond201 5 none (by decide)
    (fun j hj => ⟨[sampleDebit], by interval_cases j; rfl⟩) rfl

/-- C9: when the fetch stage yields zero transactions, the orchestrator
short-circuits: the import-tag creation is never attempted, the Transformer
never runs, no upload request is issued, and the terminal result is a
success with `transactionsCount = 0` and `syncedCount = 0`. -/
theorem sync_zero_short_circuit (today syncDays : Int) (accountNumber : String)
    (fetchRespond : Nat → Except String FetchPayload)
    (tagOutcome : Except String Nat) (uploadRespond : Nat → LMResponse)
    (assetId : Int) (suffix : Option String)
    (hfetch : (fetchTransactions today syncDays fetchRespond).result = .ok []) :
    (sync today syncDays accountNumber fetchRespond tagOutcome uploadRespond
        assetId suffix).success = true ∧
    (sync today syncDays accountNumber fetchRespond tagOutcome uploadRespond
        assetId suffix).transactionsCount = 0 ∧
    (sync today syncDays accountNumber fetchRespond tagOutcome uploadRespond
        assetId suffix).syncedCount = 0 ∧
    (sync today syncDays accountNumber fetchRespond tagOutcome uploadRespond
        assetId suffix).tagCreateAttempted = false ∧
    (sync today syncDays accountNumber fetchRespond tagOutcome uploadRespond
        assetId suffix).transformedCount = none ∧
    (sync today syncDays accountNumber fetchRespond tagOutcome uploadRespond
        assetId suffix).uploadRun = none := by
  refine ⟨?_, ?_, ?_, ?_, ?_, ?_⟩ <;> simp [sync, hfetch]

theorem sync_zero_short_circuit_witness :
    (sync 100 5 "111" fetchEmpty (.ok 1) respond201 5 none).success = true ∧
    (sync 100 5 "111" fetchEmpty (.ok 1) respond201 5 none).transactionsCount = 0 ∧
    (sync 100 5 "111" fetchEmpty (.ok 1) respond201 5 none).syncedCount = 0 ∧
    (sync 100 5 "111" fetchEmpty (.ok 1) respond201 5 none).tagCreateAttempted = false ∧
    (sync 100 5 "111" fetchEmpty (.ok 1) respond201 5 none).transformedCount = none ∧
    (sync 100 5 "111" fetchEmpty (.ok 1) respond201 5 none).uploadRun = none :=
  sync_zero_short_circuit 100 5 "111" fetchEmpty (.ok 1) respond201 5 none rfl

/-- C10: a `SYNC_DAYS` environment value that passes the startup validation
(non-empty, not placeholder-valued) but parses to NaN or to 0 does not fail
the run: it passes `requiredVarOk`, and the effective lookback falls back
silently to 30 days. -/
theorem SYNC_DAYS_PARSED_fallback (s : String)
    (h1 : s ≠ "") (h2 : ¬(("your_").data <:+: s.data))
    (h3 : jsParseInt s = none ∨ jsParseInt s = some 0) :
    requiredVarOk (some s) = true ∧ SYNC_DAYS_PARSED s = 30 := by
  constructor
  · simp [requiredVarOk, h1, h2]
  · rcases h3 with h | h <;> simp [SYNC_DAYS_PARSED, h]

theorem SYNC_DAYS_PARSED_fallback_witness :
    (requiredVarOk (some "abc") = true ∧ SYNC_DAYS_PARSED "abc" = 30) ∧
    (requiredVarOk (some "0") = true ∧ SYNC_DAYS_PARSED "0" = 30) :=
  ⟨SYNC_DAYS_PARSED_fallback "abc" (by decide) (by decide) (Or.inl rfl),
   SYNC_DAYS_PARSED_fallback "0" (by decide) (by decide) (Or.inr rfl)⟩

/-- C6: a non-success response status on any upload batch fails the whole
run: the uploader stops at the failing batch (exactly `k + 1` requests when
batch `k` fails, so no subsequent batch is submitted), the error is
classified by HTTP status (401 invalid credential, 429 rate limited,
503/5xx service unavailable or server error, 400 bad request, 404 not
found), the per-batch inserted/skipped counts reported before the failure
are exactly those of the `k` completed batches, and the orchestrator's
terminal result is a failure. -/
theorem sendToLunchMoney_abort_on_failure :
    (∀ (transactions : List LMTransaction) (respond : Nat → LMResponse)
        (B : Nat → LMBody) (k : Nat),
      k < (mkBatches transactions).length →
      (∀ j < k, goodResponse (respond j) (B j)) →
      ¬(respOk (respond k).status = true) →
      (respond k).status ≠ 201 →
      (sendToLunchMoney transactions respond).outcome =
        .error (.api (respond k).status
          (classifyMessage (respond k).status (respond k).bodyText)) ∧
      (sendToLunchMoney transactions respond).submitted = k + 1 ∧
      (sendToLunchMoney transactions respond).completedCounts =
        (List.range k).map (fun j => countsOf (B j))) ∧
    (∀ (today syncDays : Int) (accountNumber : String)
        (fetchRespond : Nat → Except String FetchPayload)
        (txs : List RawTransaction) (tagId : Nat)
        (uploadRespond : Nat → LMResponse) (assetId : Int)
        (suffix : Option String) (e : UploadError),
      (fetchTransactions today syncDays fetchRespond).result = .ok txs →
      txs ≠ [] →
      (sendToLunchMoney (transformTransactions assetId suffix txs tagId)
          uploadRespond).outcome = .error e →
      (sync today syncDays accountNumber fetchRespond (.ok tagId)
          uploadRespond assetId suffix).success = false ∧
      (sync today syncDays accountNumber fetchRespond (.ok tagId)
          uploadRespond assetId suffix).uploadRun =
        some (sendToLunchMoney (transformTransactions assetId suffix txs tagId)
          uploadRespond)) ∧
    (∀ t, classifyMessage 401 t =
      "Invalid Lunch Money API token. Please check your LUNCHMONEY_TOKEN.") ∧
    (∀ t, classifyMessage 429 t =
      "Lunch Money rate limit exceeded (429). Please try again later.") ∧
    (∀ t, classifyMessage 503 t =
      "Lunch Money service is temporarily unavailable (503). Please try again in a few minutes.") ∧
    (∀ t, classifyMessage 400 t =
      "Lunch Money bad request (400): " ++ t.take 200) ∧
    (∀ t, classifyMessage 404 t =
      "Lunch Money resource not found (404). Check your manual_account_id.") ∧
    (∀ (s : Nat) (t : String), 500 ≤ s →
      classifyMessage s t =
        "Lunch Money service is temporarily unavailable (503). Please try again in a few minutes." ∨
      classifyMessage s t = "Lunch Money server error. Please try again later." ∨
      classifyMessage s t =
        "Lunch Money server error (" ++ toString s ++ "). The service may be experiencing issues.") := by
  refine ⟨?_, ?_, fun t => rfl, fun t => rfl, fun t => rfl, fun t => rfl,
    fun t => rfl, ?_⟩
  · intro transactions respond B k hk hgood hf1 hf2
    have h := runBatches_fail respond B k (mkBatches transactions) 0 hk
      (fun j hj => by simpa using hgood j hj)
      (by simpa using hf1) (by simpa using hf2)
    simp only [Nat.zero_add] at h
    refine ⟨?_, ?_, ?_⟩ <;> simp [sendToLunchMoney, h]
  · intro today syncDays accountNumber fetchRespond txs tagId uploadRespond
      assetId suffix e hfetch hne hout
    have hlen0 : ¬(txs.length = 0) := by
      intro hh
      exact hne (List.length_eq_zero.mp hh)
    constructor <;> simp [sync, hfetch, hlen0, hout]
  · intro s t hs
    by_cases h503 : s = 503
    · exact Or.inl (by simp [classifyMessage, h503])
    · by_cases h500 : s = 500
      · exact Or.inr (Or.inl (by simp [classifyMessage, h500]))
      · refine Or.inr (Or.inr ?_)
        rw [classifyMessage, if_neg h503, if_neg (by omega : ¬s = 401),
          if_neg (by omega : ¬s = 400), if_neg (by omega : ¬s = 404),
          if_neg (by omega : ¬s = 429), if_neg h500,
          if_neg (by simp; omega), if_pos hs]

theorem sendToLunchMoney_abort_on_failure_witness :
    ((sendToLunchMoney [lmSample] respond401).outcome =
        .error (.api (respond401 0).status
          (classifyMessage (respond401 0).status (respond401 0).bodyText)) ∧
      (sendToLunchMoney [lmSample] respond401).submitted = 0 + 1 ∧
      (sendToLunchMoney [lmSample] respond401).completedCounts =
        (List.range 0).map (fun _j => countsOf (⟨none, none, none, none⟩ : LMBody))) ∧
    ((sync 100 5 "111" fetchOneAlways (.ok 9) respond401 5 none).success = false ∧
      (sync 100 5 "111" fetchOneAlways (.ok 9) respond401 5 none).uploadRun =
        some (sendToLunchMoney (transformTransactions 5 none [sampleDebit] 9)
          respond401)) :=
  ⟨sendToLunchMoney_abort_on_failure.1 [lmSample] respond401
      (fun _ => ⟨none, none, none, none⟩) 0 (by decide)
      (fun j hj => absurd hj (Nat.not_lt_zero j)) (by decide) (by decide),
   sendToLunchMoney_abort_on_failure.2.1 100 5 "111" fetchOneAlways
      [sampleDebit] 9 respond401 5 none
      (.api (respond401 0).status
        (classifyMessage (respond401 0).status (respond401 0).bodyText))
      rfl (by simp) rfl⟩

/-- C7: when every upload batch succeeds, the run returns successfully with
the totalled counts, and the reconciliation check is only a warning: the
mismatch flag is set exactly when inserted + skipped differs from the
number of transactions submitted, and the outcome is `.ok` regardless.
For the concrete scenario of one batch of 3 records answered with 2
inserted and 1 skipped duplicate, the reported counts are inserted = 2 and
skipped = 1 and the reconciliation check passes (no warning). -/
theorem sendToLunchMoney_reconciliation :
    (∀ (transactions : List LMTransaction) (respond : Nat → LMResponse)
        (B : Nat → LMBody),
      (∀ j < (mkBatches transactions).length, goodResponse (respond j) (B j)) →
      ∃ results,
        (sendToLunchMoney transactions respond).outcome = .ok results ∧
        ((sendToLunchMoney transactions respond).countMismatchWarning = true ↔
          sumInserted results + sumSkipped results ≠ transactions.length)) ∧
    ((sendToLunchMoney scenarioTxs scenarioRespond).completedCounts = [(2, 1)] ∧
     (sendToLunchMoney scenarioTxs scenarioRespond).totalInserted = 2 ∧
     (sendToLunchMoney scenarioTxs scenarioRespond).totalSkipped = 1 ∧
     (sendToLunchMoney scenarioTxs scenarioRespond).countMismatchWarning = false ∧
     (sendToLunchMoney scenarioTxs scenarioRespond).outcome = .ok [scenarioBody]) := by
  constructor
  · intro transactions respond B hgood
    have h := runBatches_ok respond B (mkBatches transactions) 0
      (fun j hj => by simpa using hgood j hj)
    simp only [Nat.zero_add] at h
    refine ⟨(List.range (mkBatches transactions).length).map (fun j => B j),
      ?_, ?_⟩
    · simp [sendToLunchMoney, h]
    · simp [sendToLunchMoney, h, decide_eq_true_eq]
  · exact ⟨rfl, rfl, rfl, rfl, rfl⟩

theorem sendToLunchMoney_reconciliation_witness :
    ∃ results,
      (sendToLunchMoney scenarioTxs scenarioRespond).outcome = .ok results ∧
      ((sendToLunchMoney scenarioTxs scenarioRespond).countMismatchWarning = true ↔
        sumInserted results + sumSkipped results ≠ scenarioTxs.length) :=
  sendToLunchMoney_reconciliation.1 scenarioTxs scenarioRespond
    (fun _ => scenarioBody) (fun _j _hj => ⟨Or.inr rfl, rfl, rfl⟩)
